import Mathlib

/-!
Shallow embedding of charlotte_core's x86_64 architecture module
(src/charlotte_core/src/arch/x86_64/mod.rs) together with proofs about
its boot sequencing, interrupt handling and timer-configuration logic.

Machine integers are modelled as Nat; truncating casts are written as
explicit `% 2^w`.  Rust panics (`panic!`, `todo!`, `Result::unwrap` on
an `Err`) are modelled as `Except KPanic` error results.  External
collaborators whose code lives outside this module (the Apic driver,
the interrupt-vector handler table, the physical frame allocator) are
modelled from the specification where noted.
-/

namespace CharlotteCore

/-- The kinds of kernel panic this module can raise: `todo!()` in
`pause_isa_timers` (not implemented), the explicit `panic!` in
`set_interrupt_handler` for vectors above 255, and `Result::unwrap`
applied to an `Err` in `pmm_self_test`. -/
inductive KPanic
  | notImplemented
  | invalidVector
  | unwrapFailed
  deriving DecidableEq, Repr

/-- `u32::MAX`, the bound the timer loop compares the counter against
(`counter < u32::MAX as u64`). -/
def U32_MAX : Nat := 4294967295

/-- `u8::MAX`, the bound `set_interrupt_handler` compares the vector
against (`vector > u8::MAX as u32`). -/
def U8_MAX : Nat := 255

/-- Opaque parsed firmware information (`AcpiInfo`); the parser is an
external collaborator, so only its presence is modelled. -/
structure AcpiInfo where
  madt : Nat
  deriving DecidableEq, Repr

/-- State of the local interrupt controller (`Apic`).  `tps` is its raw
tick rate; the timer fields are written by `setup_timer` and `enabled`
by `enable`. -/
structure ApicState where
  tps : Nat
  timerMode : Nat
  timerCounter : Nat
  timerDivisor : Nat
  enabled : Bool
  deriving DecidableEq, Repr

/-- The `Api` struct of the x86_64 module: parsed firmware information,
the bootstrap processor's interrupt controller, and the saved
interrupt-flag field `irq_flags`. -/
structure ApiState where
  acpi_info : AcpiInfo
  bsp_apic : ApicState
  irq_flags : Nat
  deriving DecidableEq, Repr

/-- The `while divisor < 128` loop of `Api::setup_isa_timer`.  `fuel`
bounds the iteration count (the real loop performs at most 7 iterations
before `divisor` reaches 128, so fuel 8 is exact).  `divisor` is a `u8`
(`divisor <<= 1` is `* 2 % 256`), `counter` and the divisions are `u64`
arithmetic, exact in Nat because no intermediate exceeds 2^64. -/
def timerLoop : Nat → Nat → Nat → Nat → Nat → Nat × Nat
  | 0, divisor, counter, _, _ => (divisor, counter)
  | fuel + 1, divisor, counter, apicTps, denom =>
    if divisor < 128 then
      let c := (apicTps / divisor) / denom
      if c < U32_MAX then (divisor, c)
      else timerLoop fuel (divisor * 2 % 256) c apicTps denom
    else (divisor, counter)

/-- The (divisor, counter) pair computed by `Api::setup_isa_timer` from
the controller rate `apicTps` (`self.bsp_apic.tps`) and the requested
rate `tps`; the denominator is `tps as u64 * 10`. -/
def setup_isa_timer_calc (apicTps tps : Nat) : Nat × Nat :=
  timerLoop 8 1 0 apicTps (tps * 10)

/-- The counter the loop body computes for a given divisor:
`(R / d) / (T * 10)`. -/
def timerCounterFor (apicTps tps d : Nat) : Nat :=
  (apicTps / d) / (tps * 10)

/-- The divisors the loop actually tests, in order. -/
def divisorSeq : List Nat := [1, 2, 4, 8, 16, 32, 64]

/-- Modelled from the spec: `Apic::setup_timer` (in
`arch/x86_64/interrupts/apic`, not part of this module's source) stores
the (mode, counter, divisor) triple into the controller's timer
configuration (spec section 3: "its timer configuration (divisor,
counter, mode) is mutated by the Timer Configuration routine"). -/
def ApicState.setup_timer (apic : ApicState) (mode counter divisor : Nat) : ApicState :=
  { apic with timerMode := mode, timerCounter := counter, timerDivisor := divisor }

/-- `Api::setup_isa_timer`: run the divisor search and apply the result
to the controller; `counter as u32` is the truncation `% 2^32`. -/
def Api.setup_isa_timer (s : ApiState) (tps mode : Nat) : ApiState :=
  let p := setup_isa_timer_calc s.bsp_apic.tps tps
  { s with bsp_apic := s.bsp_apic.setup_timer mode (p.2 % 4294967296) p.1 }

/-- A division-checked variant of `timerLoop`: it returns `none` exactly
where the Rust `u64` divisions `(apicTps / divisor) / denom` would
divide by zero and panic, and otherwise agrees with `timerLoop`. -/
def timerLoopChecked : Nat → Nat → Nat → Nat → Nat → Option (Nat × Nat)
  | 0, divisor, counter, _, _ => some (divisor, counter)
  | fuel + 1, divisor, counter, apicTps, denom =>
    if divisor < 128 then
      if divisor = 0 ∨ denom = 0 then none
      else
        let c := (apicTps / divisor) / denom
        if c < U32_MAX then some (divisor, c)
        else timerLoopChecked fuel (divisor * 2 % 256) c apicTps denom
    else some (divisor, counter)

/-- Division-checked `setup_isa_timer_calc`. -/
def setup_isa_timer_checked (apicTps tps : Nat) : Option (Nat × Nat) :=
  timerLoopChecked 8 1 0 apicTps (tps * 10)

/-- The interrupt-vector handler table: 256 slots, each optionally
holding a handler (handlers are identified by a Nat). -/
abbrev IntTable := List (Option Nat)

/-- The table with every slot unset. -/
def emptyIntTable : IntTable := List.replicate 256 none

/-- Modelled from the spec: `register_iv_handler` (in
`arch/x86_64/interrupts/isa_handler`, not part of this module's source)
writes the handler into the slot indexed by the vector number, with no
range check of its own (spec section 9: "a fixed-size array indexed by
vector number (0-255), storing a function-pointer-like callable per
slot"; section 4.1: values below 32 are excluded "only by
convention"). -/
def register_iv_handler (h v : Nat) (t : IntTable) : IntTable :=
  t.set v (some h)

/-- `Api::set_interrupt_handler`: panic (`invalidVector`) when
`vector > u8::MAX`, otherwise register the handler at `vector as u8`
(the truncation `% 256`, a no-op under the guard). -/
def Api.set_interrupt_handler (h v : Nat) (t : IntTable) : Except KPanic IntTable :=
  if U8_MAX < v then .error .invalidVector
  else .ok (register_iv_handler h (v % 256) t)

/-- Modelled from the spec: `Apic::enable` (external driver) performs
controller-level enablement using the already-loaded interrupt table
(spec section 4.1); on the `Api` struct it flips the controller's
enabled state. -/
def Api.init_interrupts (s : ApiState) : ApiState :=
  { s with bsp_apic := { s.bsp_apic with enabled := true } }

/-- `Api::disable_interrupts` calls the external `irq_disable()` CPU
primitive; it writes no field of the `Api` struct (in particular not
`irq_flags`). -/
def Api.disable_interrupts (s : ApiState) : ApiState := s

/-- `Api::restore_interrupts` calls the external `irq_restore()` CPU
primitive; it writes no field of the `Api` struct (in particular not
`irq_flags`). -/
def Api.restore_interrupts (s : ApiState) : ApiState := s

/-- `Api::start_isa_timers` takes `&self` and delegates to the external
`Apic::start_timer`; it cannot write any field of the `Api` struct. -/
def Api.start_isa_timers (s : ApiState) : ApiState := s

/-- `Api::init_ap`: the body is empty (a doc comment only), so every
invocation returns normally with the state unchanged. -/
def Api.init_ap (s : ApiState) : Except KPanic ApiState := .ok s

/-- `Api::pause_isa_timers`: the body is `todo!()`, which panics with a
"not yet implemented" message on every invocation. -/
def Api.pause_isa_timers (_ : ApiState) : Except KPanic Unit := .error .notImplemented

/-- The `Api` value constructed by `Api::isa_init` (lines 72-80): the
struct literal `{ acpi_info: tbls, bsp_apic: Apic::new(..), irq_flags: 0 }`
followed by the `init_interrupts` call.  `tbls` and the freshly
constructed controller come from external collaborators and are
parameters. -/
def Api.isa_init (tbls : AcpiInfo) (apic0 : ApicState) : ApiState :=
  Api.init_interrupts { acpi_info := tbls, bsp_apic := apic0, irq_flags := 0 }

/-- The `Api` states reachable through the module's interface: the state
built by `isa_init`, closed under every operation that takes
`&mut self` or `&self`.  (`set_interrupt_handler` and `pmm_self_test`
touch only global tables, never the `Api` struct, so they preserve any
state; `init_ap` returns its state unchanged.) -/
inductive Reachable : ApiState → Prop
  | isa_init (tbls : AcpiInfo) (apic0 : ApicState) : Reachable (Api.isa_init tbls apic0)
  | setup_isa_timer {s : ApiState} (tps mode : Nat) :
      Reachable s → Reachable (Api.setup_isa_timer s tps mode)
  | init_interrupts {s : ApiState} : Reachable s → Reachable (Api.init_interrupts s)
  | disable_interrupts {s : ApiState} : Reachable s → Reachable (Api.disable_interrupts s)
  | restore_interrupts {s : ApiState} : Reachable s → Reachable (Api.restore_interrupts s)
  | start_isa_timers {s : ApiState} : Reachable s → Reachable (Api.start_isa_timers s)
  | init_ap {s s' : ApiState} : Reachable s → Api.init_ap s = .ok s' → Reachable s'

/-- Error kinds of the external physical frame allocator. -/
inductive PmmError
  | outOfMemory
  deriving DecidableEq, Repr

/-- The external physical frame allocator's interface, as consumed by
`pmm_self_test`: each call returns a result and the successor allocator
state (frames are physical base addresses, modelled as Nat). -/
structure FrameAllocator (σ : Type) where
  allocate : σ → Except PmmError Nat × σ
  allocate_contiguous : Nat → Nat → σ → Except PmmError Nat × σ
  deallocate : Nat → σ → Except PmmError Unit × σ

/-- `Api::pmm_self_test` (lines 228-277), parameterised by the
allocator behaviour.  The call order follows the source exactly:
`alloc`, `alloc2`, a `match` on `alloc` that logs `Err` and continues,
`alloc3`, then `alloc2.unwrap()` and `alloc3.unwrap()` (which panic on
`Err`: `unwrapFailed`), deallocation of both, and finally the
contiguous test whose `Err` is again logged and survived. -/
def pmm_self_test {σ : Type} (A : FrameAllocator σ) (s0 : σ) : Except KPanic σ :=
  let r1 := A.allocate s0
  let alloc := r1.1
  let r2 := A.allocate r1.2
  let alloc2 := r2.1
  let s2 :=
    match alloc with
    | .ok frame => (A.deallocate frame r2.2).2
    | .error _ => r2.2
  let r3 := A.allocate s2
  let alloc3 := r3.1
  match alloc2 with
  | .error _ => .error .unwrapFailed
  | .ok f2 =>
    let s4 := (A.deallocate f2 r3.2).2
    match alloc3 with
    | .error _ => .error .unwrapFailed
    | .ok f3 =>
      let s5 := (A.deallocate f3 s4).2
      let r4 := A.allocate_contiguous 256 64 s5
      match r4.1 with
      | .ok frame => .ok (A.deallocate frame r4.2).2
      | .error _ => .ok r4.2

/-- An allocator behaviour on which the first `allocate` succeeds and
every later call fails with `outOfMemory` (state counts the calls). -/
def oomAfterFirst : FrameAllocator Nat where
  allocate := fun s => if s = 0 then (.ok 4096, 1) else (.error .outOfMemory, s + 1)
  allocate_contiguous := fun _ _ s => (.error .outOfMemory, s + 1)
  deallocate := fun _ s => (.ok (), s + 1)

/-- A concrete `Api` state whose controller rate 2^48 is too fast for
any divisor: every tested counter overflows 32 bits. -/
def satTestState : ApiState :=
  ApiState.mk (AcpiInfo.mk 0) (ApicState.mk 281474976710656 0 0 0 false) 0

/-- The observable events of the boot path, in the order the source
emits them. -/
inductive BootEvent
  | screenCleared
  | gdtLoaded
  | segmentRegsReloaded
  | tssLoaded
  | exceptionsRegistered
  | idtLoaded
  | vendorQueried
  | acpiParsed
  | apicConstructed
  | interruptsEnabled
  | selfTestRun
  deriving DecidableEq, BEq, Repr

/-- The event sequence of `Api::init_bsp` (lines 205-226): GDT load,
segment-register reload, TSS load, exception registration, IDT load,
vendor query. -/
def init_bsp_trace : List BootEvent :=
  [.gdtLoaded, .segmentRegsReloaded, .tssLoaded,
   .exceptionsRegistered, .idtLoaded, .vendorQueried]

/-- The event sequence of `Api::isa_init` (lines 63-92): clear screen,
`init_bsp`, ACPI parse, controller construction, `init_interrupts`,
`pmm_self_test`. -/
def isa_init_trace : List BootEvent :=
  .screenCleared :: init_bsp_trace ++
    [.acpiParsed, .apicConstructed, .interruptsEnabled, .selfTestRun]

/-! ## Helper lemmas about the timer divisor search -/

/-- Closed form of the divisor search: the nested conditionals the
`while` loop unfolds to (divisor 128 itself is never tested; when the
test at 64 fails the loop exits with divisor 128 and the counter last
computed at 64). -/
theorem setup_calc_unfold (R T : Nat) :
    setup_isa_timer_calc R T =
      if timerCounterFor R T 1 < U32_MAX then (1, timerCounterFor R T 1)
      else if timerCounterFor R T 2 < U32_MAX then (2, timerCounterFor R T 2)
      else if timerCounterFor R T 4 < U32_MAX then (4, timerCounterFor R T 4)
      else if timerCounterFor R T 8 < U32_MAX then (8, timerCounterFor R T 8)
      else if timerCounterFor R T 16 < U32_MAX then (16, timerCounterFor R T 16)
      else if timerCounterFor R T 32 < U32_MAX then (32, timerCounterFor R T 32)
      else if timerCounterFor R T 64 < U32_MAX then (64, timerCounterFor R T 64)
      else (128, timerCounterFor R T 64) := rfl

/-- Raising the requested rate can only shrink the computed counter, so
a divisor that fits for `T1` also fits for any `T2 ≥ T1`. -/
theorem fits_anti (R T1 T2 d : Nat) (h1 : 0 < T1) (h12 : T1 ≤ T2)
    (h : timerCounterFor R T1 d < U32_MAX) : timerCounterFor R T2 d < U32_MAX := by
  have hle : timerCounterFor R T2 d ≤ timerCounterFor R T1 d := by
    unfold timerCounterFor
    exact Nat.div_le_div_left (by omega) (by omega)
  omega

/-- The chosen divisor never exceeds 128. -/
theorem calc_fst_le_128 (R T : Nat) : (setup_isa_timer_calc R T).1 ≤ 128 := by
  rw [setup_calc_unfold]
  split_ifs <;> simp

/-- If some tested divisor fits, the chosen divisor is at most it. -/
theorem calc_fst_le_of_fits (R T d : Nat) (hd : d ∈ divisorSeq)
    (hfit : timerCounterFor R T d < U32_MAX) : (setup_isa_timer_calc R T).1 ≤ d := by
  rw [setup_calc_unfold]
  simp only [divisorSeq, List.mem_cons, List.not_mem_nil, or_false] at hd
  rcases hd with rfl | rfl | rfl | rfl | rfl | rfl | rfl <;>
    split_ifs <;> simp_all

/-- The chosen divisor is either the saturation value 128 or a tested
divisor whose counter fits below `u32::MAX`. -/
theorem calc_fits_or_128 (R T : Nat) :
    (setup_isa_timer_calc R T).1 = 128 ∨
      ((setup_isa_timer_calc R T).1 ∈ divisorSeq ∧
        timerCounterFor R T (setup_isa_timer_calc R T).1 < U32_MAX) := by
  rw [setup_calc_unfold]
  split_ifs <;> simp_all [divisorSeq]

/-- The division-checked loop agrees with the plain loop whenever the
divisor and the denominator are nonzero; the divisor-doubling step
preserves positivity because the loop only runs while `divisor < 128`. -/
theorem timerLoopChecked_eq (fuel : Nat) :
    ∀ divisor counter R denom, 0 < divisor → 0 < denom →
      timerLoopChecked fuel divisor counter R denom =
        some (timerLoop fuel divisor counter R denom) := by
  induction fuel with
  | zero => intro divisor counter R denom _ _; rfl
  | succ n ih =>
    intro divisor counter R denom hdiv hden
    unfold timerLoopChecked timerLoop
    by_cases h128 : divisor < 128
    · rw [if_pos h128, if_pos h128, if_neg (by omega)]
      by_cases hc : (R / divisor) / denom < U32_MAX
      · simp only [hc, if_pos]
      · simp only [hc, if_neg, not_false_iff]
        exact ih _ _ R denom (by omega) hden
    · rw [if_neg h128, if_neg h128]

/-! ## Claim theorems -/

/-- C1: the claim says `pmm_self_test` logs every allocator outcome and
always returns normally; the code instead calls `Result::unwrap` on the
second and third single-frame allocations (lines 254-255), so an
allocator on which the second `allocate` fails makes the self-test
panic instead of completing.  Evaluated here on such an allocator. -/
theorem pmm_self_test_panics_when_second_alloc_fails :
    pmm_self_test oomAfterFirst 0 = .error .unwrapFailed := rfl

/-- C2 counterexample: the claim says every vector below 32 is rejected
with InvalidVector and leaves the table unchanged; the code checks only
`vector > u8::MAX`, so registering at vector 0 succeeds and writes
slot 0. -/
theorem set_interrupt_handler_accepts_vector_zero :
    Api.set_interrupt_handler 7 0 emptyIntTable =
      .ok (some 7 :: List.replicate 255 none) := rfl

/-- C2 amended: `set_interrupt_handler` succeeds exactly when the
vector is at most 255 — every such vector (including the reserved
0-31) is registered — and any vector above 255 panics (the
invalid-vector condition) with the table untouched. -/
theorem set_interrupt_handler_range (h v : Nat) (t : IntTable) :
    (v ≤ 255 → Api.set_interrupt_handler h v t = .ok (register_iv_handler h v t)) ∧
    (255 < v → Api.set_interrupt_handler h v t = .error .invalidVector) := by
  constructor
  · intro hv
    unfold Api.set_interrupt_handler
    rw [if_neg (by unfold U8_MAX; omega), Nat.mod_eq_of_lt (by omega)]
  · intro hv
    unfold Api.set_interrupt_handler
    rw [if_pos (by unfold U8_MAX; omega)]

/-- C2 witness: registration at vector 40 succeeds, at vector 300 it
panics. -/
theorem set_interrupt_handler_range_witness :
    Api.set_interrupt_handler 7 40 emptyIntTable =
        .ok (register_iv_handler 7 40 emptyIntTable) ∧
      Api.set_interrupt_handler 7 300 emptyIntTable = .error KPanic.invalidVector :=
  ⟨(set_interrupt_handler_range 7 40 emptyIntTable).1 (by decide),
   (set_interrupt_handler_range 7 300 emptyIntTable).2 (by decide)⟩

/-- C3 counterexample: the claim says the loop stops at the smallest
divisor whose counter is strictly below 2^32; the code compares against
`u32::MAX` = 2^32 - 1 instead.  For R = 42949672950 and T = 1 the
divisor 1 gives counter 4294967295 < 2^32 (representable in 32 bits),
yet the code rejects it and selects divisor 2. -/
theorem setup_isa_timer_not_smallest_at_u32_max_boundary :
    timerCounterFor 42949672950 1 1 < 4294967296 ∧
      setup_isa_timer_calc 42949672950 1 = (2, 2147483647) := by decide

/-- C3 amended: for T ≥ 1, the pair applied is the smallest divisor d
among the tested sequence {1,2,4,8,16,32,64} whose counter
`(R / d) / (T * 10)` is strictly below `u32::MAX` = 2^32 - 1 (not
2^32), together with that counter; divisor 128 is never itself
tested. -/
theorem setup_isa_timer_selects_smallest_below_u32_max (R T d : Nat) (hT : 0 < T)
    (hd : d ∈ divisorSeq) (hfit : timerCounterFor R T d < U32_MAX)
    (hmin : ∀ e ∈ divisorSeq, e < d → ¬ timerCounterFor R T e < U32_MAX) :
    setup_isa_timer_calc R T = (d, timerCounterFor R T d) := by
  rw [setup_calc_unfold]
  simp only [divisorSeq, List.mem_cons, List.not_mem_nil, or_false] at hd hmin
  rcases hd with rfl | rfl | rfl | rfl | rfl | rfl | rfl <;> split_ifs <;>
    simp_all <;> omega

/-- C3 witness: at R = 42949672950, T = 1 the smallest divisor whose
counter is below `u32::MAX` is 2, and the loop selects it. -/
theorem setup_isa_timer_selects_smallest_below_u32_max_witness :
    setup_isa_timer_calc 42949672950 1 = (2, timerCounterFor 42949672950 1 2) :=
  setup_isa_timer_selects_smallest_below_u32_max 42949672950 1 2 (by decide)
    (by decide) (by decide) (by decide)

/-- C4: divisor selection is antitone in the requested rate: for a
fixed controller rate R and requested rates T1 < T2 (T1 positive, since
a zero rate divides by zero instead of choosing a divisor), the divisor
chosen for T2 is at most the divisor chosen for T1. -/
theorem setup_isa_timer_divisor_antitone (R T1 T2 : Nat) (h1 : 0 < T1) (h12 : T1 < T2) :
    (setup_isa_timer_calc R T2).1 ≤ (setup_isa_timer_calc R T1).1 := by
  rcases calc_fits_or_128 R T1 with h | ⟨hmem, hfit⟩
  · rw [h]; exact calc_fst_le_128 R T2
  · exact calc_fst_le_of_fits R T2 _ hmem (fits_anti R T1 T2 _ h1 (le_of_lt h12) hfit)

/-- C4 witness: at R = 42949672950 the requested rate 1 gets divisor 2
and the larger requested rate 5 gets divisor 1. -/
theorem setup_isa_timer_divisor_antitone_witness :
    (setup_isa_timer_calc 42949672950 5).1 ≤ (setup_isa_timer_calc 42949672950 1).1 :=
  setup_isa_timer_divisor_antitone 42949672950 1 5 (by decide) (by decide)

/-- C5: when no divisor in {1,...,128} yields a counter representable
in 32 bits, the loop exits with divisor 128, the counter is the
out-of-range value computed at divisor 64, and the pair is still
applied to the controller's timer configuration (truncated by the
`as u32` cast) rather than the request being rejected. -/
theorem setup_isa_timer_saturates_at_divisor_128 (s : ApiState) (T mode : Nat)
    (h : ∀ d ∈ [1, 2, 4, 8, 16, 32, 64, 128],
      ¬ timerCounterFor s.bsp_apic.tps T d < 4294967296) :
    setup_isa_timer_calc s.bsp_apic.tps T = (128, timerCounterFor s.bsp_apic.tps T 64) ∧
      4294967296 ≤ timerCounterFor s.bsp_apic.tps T 64 ∧
      Api.setup_isa_timer s T mode =
        { s with bsp_apic := (s.bsp_apic.setup_timer mode
            (timerCounterFor s.bsp_apic.tps T 64 % 4294967296) 128) } := by
  have hk : ∀ d ∈ [1, 2, 4, 8, 16, 32, 64, 128],
      ¬ timerCounterFor s.bsp_apic.tps T d < U32_MAX := by
    intro d hd hlt
    exact h d hd (by unfold U32_MAX at hlt; omega)
  have hcalc : setup_isa_timer_calc s.bsp_apic.tps T =
      (128, timerCounterFor s.bsp_apic.tps T 64) := by
    rw [setup_calc_unfold]
    rw [if_neg (hk 1 (by norm_num)), if_neg (hk 2 (by norm_num)),
        if_neg (hk 4 (by norm_num)), if_neg (hk 8 (by norm_num)),
        if_neg (hk 16 (by norm_num)), if_neg (hk 32 (by norm_num)),
        if_neg (hk 64 (by norm_num))]
  refine ⟨hcalc, ?_, ?_⟩
  · have := h 64 (by norm_num); omega
  · simp [Api.setup_isa_timer, hcalc]

/-- C5 witness: with controller rate 2^48 and requested rate 1 no
divisor yields a representable counter; divisor 128 and the truncated
counter computed at 64 are applied. -/
theorem setup_isa_timer_saturates_at_divisor_128_witness :
    setup_isa_timer_calc satTestState.bsp_apic.tps 1 =
        (128, timerCounterFor satTestState.bsp_apic.tps 1 64) ∧
      4294967296 ≤ timerCounterFor satTestState.bsp_apic.tps 1 64 ∧
      Api.setup_isa_timer satTestState 1 0 =
        { satTestState with bsp_apic := (satTestState.bsp_apic.setup_timer 0
            (timerCounterFor satTestState.bsp_apic.tps 1 64 % 4294967296) 128) } :=
  setup_isa_timer_saturates_at_divisor_128 satTestState 1 0 (by decide)

/-- C6: the counter computation is total exactly for positive requested
rates: at tps = 0 the expression `(bsp_apic.tps / divisor) / (tps * 10)`
divides by zero on the first iteration, while for every tps ≥ 1 all
divisions along the loop are well-defined and the checked evaluation
agrees with the plain one. -/
theorem setup_isa_timer_total_iff_tps_pos (R T : Nat) :
    (T = 0 → setup_isa_timer_checked R T = none) ∧
    (0 < T → setup_isa_timer_checked R T = some (setup_isa_timer_calc R T)) := by
  constructor
  · rintro rfl; rfl
  · intro hT
    exact timerLoopChecked_eq 8 1 0 R (T * 10) (by omega) (by omega)

/-- C6 witness: at controller rate 1000000 the requested rate 0 panics
by zero division and the requested rate 100 evaluates normally. -/
theorem setup_isa_timer_total_iff_tps_pos_witness :
    setup_isa_timer_checked 1000000 0 = none ∧
      setup_isa_timer_checked 1000000 100 = some (setup_isa_timer_calc 1000000 100) :=
  ⟨(setup_isa_timer_total_iff_tps_pos 1000000 0).1 rfl,
   (setup_isa_timer_total_iff_tps_pos 1000000 100).2 (by decide)⟩

/-- C7: `irq_flags` is 0 in the state `isa_init` constructs and no
operation of the interface ever writes it, so it is 0 in every
reachable state of the Architecture instance. -/
theorem irq_flags_invariant_zero (s : ApiState) (h : Reachable s) : s.irq_flags = 0 := by
  induction h with
  | isa_init tbls apic0 => rfl
  | setup_isa_timer tps mode hs ih =>
      simpa [Api.setup_isa_timer, ApicState.setup_timer] using ih
  | init_interrupts hs ih => simpa [Api.init_interrupts] using ih
  | disable_interrupts hs ih => exact ih
  | restore_interrupts hs ih => exact ih
  | start_isa_timers hs ih => exact ih
  | init_ap hs heq ih =>
      simp only [Api.init_ap, Except.ok.injEq] at heq
      exact heq ▸ ih

/-- C7 witness: the state built by `isa_init` has `irq_flags = 0`. -/
theorem irq_flags_invariant_zero_witness :
    (Api.isa_init ⟨0⟩ ⟨1000000, 0, 0, 0, false⟩).irq_flags = 0 :=
  irq_flags_invariant_zero _ (Reachable.isa_init ⟨0⟩ ⟨1000000, 0, 0, 0, false⟩)

/-- C8: every invocation of `pause_isa_timers` is the `todo!()` panic,
i.e. the not-implemented failure, never a successful return. -/
theorem pause_isa_timers_always_not_implemented (s : ApiState) :
    Api.pause_isa_timers s = .error .notImplemented := rfl

/-- C9 counterexample: the claim says every invocation of `init_ap`
fails with NotImplemented; the body of `init_ap` is empty, so a
concrete invocation returns successfully with the state unchanged. -/
theorem init_ap_silently_succeeds :
    Api.init_ap (ApiState.mk ⟨0⟩ ⟨1000000, 0, 0, 0, false⟩ 0) =
      .ok (ApiState.mk ⟨0⟩ ⟨1000000, 0, 0, 0, false⟩ 0) := rfl

/-- C9 amended: every invocation of `init_ap` silently succeeds as a
no-op, returning the unchanged state; it never fails. -/
theorem init_ap_is_noop (s : ApiState) : Api.init_ap s = .ok s := rfl

/-- C10: in the boot sequence of `isa_init` the interrupt descriptor
table is loaded (inside `init_bsp`) strictly before the interrupt
controller is enabled (`init_interrupts`), so interrupts are never
observed enabled before the table is loaded. -/
theorem idt_loaded_before_interrupts_enabled :
    isa_init_trace.indexOf BootEvent.idtLoaded <
        isa_init_trace.indexOf BootEvent.interruptsEnabled ∧
      isa_init_trace.indexOf BootEvent.interruptsEnabled < isa_init_trace.length := by
  decide

end CharlotteCore
